import Mathlib

/-!
Shallow embedding of the Challenge Lifecycle core of the Voice CAPTCHA
server (src/app.py): the challenge store, the per-client rate limiter,
the verify endpoint, and the sequence sources / creation endpoints.

Modelling conventions:
- SQLite rows of the `challenges` table become an association list
  keyed by the challenge id; `SELECT ... WHERE id = ?` with a primary
  key becomes the first match of the list, `UPDATE ... WHERE id = ?`
  maps over all rows with that id, and `INSERT` with a duplicate
  primary key fails without mutating the table (modelled as returning
  the table unchanged, since the route would then error out before
  commit).
- `datetime` values become integers counted in seconds, so that
  `timedelta(seconds=2)` is the integer 2 and timestamp subtraction is
  integer subtraction.
- `random.choices("0123456789", k=n)` consumes an entropy stream
  modelled as a function from draw index to an index into the pool;
  `random.randint(3, 6)` is modelled as 3 plus a draw from Fin 4.
- JSON values arriving in a request body become the inductive JValue;
  the Python str() coercion applied by the code to the response field
  is pyStr.
- The md5-derived challenge id is an opaque caller-supplied token: the
  hash itself plays no role in lifecycle behaviour.
-/

/-- Python str.isdigit restricted to the ASCII digits actually used by
this program; the cleaning step of verify_response keeps exactly the
digit characters of a string (src/app.py lines 191-192). -/
def cleanDigits (s : String) : String :=
  String.mk (s.data.filter Char.isDigit)

/-- A JSON scalar as it can arrive in the request body for the
`response` field. -/
inductive JValue where
  | null
  | bool (b : Bool)
  | int (n : Int)
  | str (s : String)
deriving DecidableEq, Repr

/-- Python str() on a JSON scalar, as applied by
`str(user_response)` in src/app.py line 191. -/
def pyStr : JValue → String
  | .null => "None"
  | .bool true => "True"
  | .bool false => "False"
  | .int n => toString n
  | .str s => s

/-- One row of the `challenges` table (src/app.py init_db, lines
111-117): id is the association-list key, the remaining columns are
the fields below.  `attempts` has SQL default 0 and `solved` has SQL
default FALSE. -/
structure Challenge where
  sequence : String
  created_at : Int
  attempts : Nat
  solved : Bool
  challenge_type : String
deriving DecidableEq, Repr

/-- The `challenges` table: rows keyed by challenge id. -/
abbrev Store := List (String × Challenge)

/-- `SELECT ... FROM challenges WHERE id = ?` followed by fetchone. -/
def getChallenge (db : Store) (id : String) : Option Challenge :=
  (List.find? (fun p => p.1 == id) db).map (fun p => p.2)

/-- `UPDATE challenges SET <field> = ... WHERE id = ?`: rewrite every
row whose key is id through f. -/
def updField (db : Store) (id : String) (f : Challenge → Challenge) : Store :=
  db.map (fun p => if p.1 == id then (p.1, f p.2) else p)

/-- `UPDATE challenges SET attempts = ? WHERE id = ?`
(src/app.py line 187). -/
def updateAttempts (db : Store) (id : String) (n : Nat) : Store :=
  updField db id (fun ch => { ch with attempts := n })

/-- `UPDATE challenges SET solved = ? WHERE id = ?` with value TRUE
(src/app.py line 197). -/
def markSolved (db : Store) (id : String) : Store :=
  updField db id (fun ch => { ch with solved := true })

/-- `INSERT INTO challenges (id, sequence, created_at, challenge_type)`
with the SQL defaults attempts = 0, solved = FALSE; a duplicate
primary key makes the INSERT fail, leaving the table unchanged. -/
def insertChallenge (db : Store) (id : String) (seq : String)
    (created : Int) (ctype : String) : Store :=
  if (List.find? (fun p => p.1 == id) db).isSome then db
  else (id, { sequence := seq, created_at := created, attempts := 0,
              solved := false, challenge_type := ctype }) :: db

/-- The module-level dict `challenge_attempts` mapping client address
to the time of its last verification attempt (src/app.py line 151). -/
abbrev AttemptMap := List (String × Int)

/-- Dict lookup `challenge_attempts[ip_address]`. -/
def lookupAttempt (m : AttemptMap) (ip : String) : Option Int :=
  (List.find? (fun p => p.1 == ip) m).map (fun p => p.2)

/-- Dict assignment `challenge_attempts[ip_address] = now`. -/
def setAttempt (m : AttemptMap) (ip : String) (t : Int) : AttemptMap :=
  if (List.find? (fun p => p.1 == ip) m).isSome then
    m.map (fun p => if p.1 == ip then (p.1, t) else p)
  else (ip, t) :: m

/-- `timedelta(seconds=2)` of src/app.py line 164, in seconds. -/
def min_interval : Int := 2

/-- The mutable state the verify and create routes touch: the rate
limiter dict and the challenges table. -/
structure ServerState where
  challenge_attempts : AttemptMap
  db : Store
deriving DecidableEq, Repr

/-- The request body of POST /api/verify-response, after
`data.get("challenge_id")` and `data.get("response", "")`: a missing
key yields none. -/
structure VerifyRequest where
  challenge_id : Option String
  response : Option JValue
deriving DecidableEq, Repr

/-- The four distinct JSON bodies verify_response can return
(src/app.py lines 165-169, 173, 182, 202-207). -/
inductive VerifyOutcome where
  | rateLimited
  | missingChallengeId
  | invalidChallenge
  | verdict (success : Bool) (expected provided : String)
deriving DecidableEq, Repr

/-- The `success` field of the returned JSON body. -/
def VerifyOutcome.success : VerifyOutcome → Bool
  | .verdict s _ _ => s
  | _ => false

/-- Whether the returned JSON body carries `rate_limited: true`. -/
def VerifyOutcome.rate_limited : VerifyOutcome → Bool
  | .rateLimited => true
  | _ => false

/-- The `error` field of the returned JSON body, when present. -/
def VerifyOutcome.error : VerifyOutcome → Option String
  | .missingChallengeId => some "Missing challenge_id"
  | .invalidChallenge => some "Invalid challenge"
  | _ => none

/-- The `expected` field of the returned JSON body, when present. -/
def VerifyOutcome.expected : VerifyOutcome → Option String
  | .verdict _ e _ => some e
  | _ => none

/-- The `provided` field of the returned JSON body, when present. -/
def VerifyOutcome.provided : VerifyOutcome → Option String
  | .verdict _ _ p => some p
  | _ => none

/-- The body of verify_response after the rate-limit gate has been
passed (src/app.py lines 171-207): record the attempt time, reject a
falsy challenge_id, load the challenge, bump its attempt count, clean
both strings, compare, and mark solved on a match. -/
def verifyGate (st : ServerState) (ip : String) (req : VerifyRequest)
    (now : Int) : VerifyOutcome × ServerState :=
  let st1 : ServerState :=
    { st with challenge_attempts := setAttempt st.challenge_attempts ip now }
  match req.challenge_id with
  | none => (.missingChallengeId, st1)
  | some cid =>
    if cid == "" then (.missingChallengeId, st1)
    else
      match getChallenge st1.db cid with
      | none => (.invalidChallenge, st1)
      | some ch =>
        let db1 := updateAttempts st1.db cid (ch.attempts + 1)
        let user_clean :=
          cleanDigits (pyStr (req.response.getD (.str "")))
        let sequence_clean := cleanDigits ch.sequence
        let success := user_clean == sequence_clean
        let db2 := if success then markSolved db1 cid else db1
        (.verdict success sequence_clean user_clean, { st1 with db := db2 })

/-- POST /api/verify-response (src/app.py lines 153-207).  The rate
limiter returns early, before any table access, when the same client
address attempted a verification less than min_interval ago. -/
def verify_response (st : ServerState) (ip : String) (req : VerifyRequest)
    (now : Int) : VerifyOutcome × ServerState :=
  match lookupAttempt st.challenge_attempts ip with
  | some last_attempt =>
    if now - last_attempt < min_interval then (.rateLimited, st)
    else verifyGate st ip req now
  | none => verifyGate st ip req now

/-- The pool string "0123456789" passed to random.choices. -/
def digitPool : List Char :=
  ['0', '1', '2', '3', '4', '5', '6', '7', '8', '9']

/-- `"".join(random.choices("0123456789", k=k))`: k draws from the
entropy stream rng, each an index into the ten-character pool. -/
def pyChoicesDigits (rng : Nat → Fin 10) (k : Nat) : String :=
  String.mk ((List.range k).map (fun i => digitPool.get ⟨(rng i).val, (rng i).isLt⟩))

/-- One label generated by SimpleDatasetLoader.load_audio_samples
(src/app.py line 39): digits of length random.randint(3, 6), the
bounded draw modelled as 3 plus a Fin 4 value. -/
def load_audio_sample (lenChoice : Fin 4) (rng : Nat → Fin 10) : String :=
  pyChoicesDigits rng (3 + lenChoice.val)

/-- EnhancedAudioCaptchaGenerator.generate_synthetic_challenge
(src/app.py line 96): four random digits. -/
def generate_synthetic_challenge (rng : Nat → Fin 10) : String :=
  pyChoicesDigits rng 4

/-- The sequence minted by POST /api/alternative-challenge
(src/app.py line 212): three random digits. -/
def alternative_sequence (rng : Nat → Fin 10) : String :=
  pyChoicesDigits rng 3

/-- POST /api/alternative-challenge (src/app.py lines 209-228):
generate a three-digit sequence and insert a fresh challenge row of
type "alternative"; returns the new table and the sequence. -/
def alternative_challenge (db : Store) (rng : Nat → Fin 10) (cid : String)
    (now : Int) : Store × String :=
  (insertChallenge db cid (alternative_sequence rng) now "alternative",
    alternative_sequence rng)

/-- The challenge dict built inside enhanced_generate_challenge:
either a dataset challenge carrying true_text or a synthetic one
carrying sequence. -/
inductive GeneratedChallenge where
  | dataset (true_text : String)
  | synthetic (sequence : String)
deriving DecidableEq, Repr

/-- `challenge.get("true_text", challenge.get("sequence", ""))`
(src/app.py line 296). -/
def GeneratedChallenge.text : GeneratedChallenge → String
  | .dataset t => t
  | .synthetic s => s

/-- The `type` entry of the challenge dict. -/
def GeneratedChallenge.kind : GeneratedChallenge → String
  | .dataset _ => "dataset_audio"
  | .synthetic _ => "synthetic"

/-- EnhancedAudioCaptchaGenerator.generate_challenge_from_dataset
(src/app.py lines 77-92): with the dataset enabled the loader always
has samples (get_random_captcha reloads when empty), so the dataset
branch is taken; otherwise fall back to synthetic. -/
def generate_challenge_from_dataset (use_dataset : Bool) (lenChoice : Fin 4)
    (rng : Nat → Fin 10) : GeneratedChallenge :=
  if use_dataset then .dataset (load_audio_sample lenChoice rng)
  else .synthetic (generate_synthetic_challenge rng)

/-- The challenge dict enhanced_generate_challenge builds before
persisting (src/app.py lines 290-293): dataset generation when both
the request and the generator enable it, else synthetic. -/
def enhanced_challenge_dict (req_use_dataset gen_use_dataset : Bool)
    (lenChoice : Fin 4) (rng : Nat → Fin 10) : GeneratedChallenge :=
  if req_use_dataset && gen_use_dataset then
    generate_challenge_from_dataset gen_use_dataset lenChoice rng
  else .synthetic (generate_synthetic_challenge rng)

/-- POST /api/enhanced/generate-challenge (src/app.py lines 284-328):
build the challenge dict, insert a fresh challenge row with its text
and kind; returns the new table and the stored sequence. -/
def enhanced_generate_challenge (db : Store) (req_use_dataset gen_use_dataset : Bool)
    (lenChoice : Fin 4) (rng : Nat → Fin 10) (cid : String) (now : Int) :
    Store × String :=
  (insertChallenge db cid
      (enhanced_challenge_dict req_use_dataset gen_use_dataset lenChoice rng).text now
      (enhanced_challenge_dict req_use_dataset gen_use_dataset lenChoice rng).kind,
    (enhanced_challenge_dict req_use_dataset gen_use_dataset lenChoice rng).text)

/-- Whether the rate-limit gate of verify_response lets a call from ip
at time now through (src/app.py lines 161-169). -/
def rateAllows (m : AttemptMap) (ip : String) (now : Int) : Bool :=
  match lookupAttempt m ip with
  | none => true
  | some last_attempt => decide (min_interval ≤ now - last_attempt)

/-- One client-visible operation of the lifecycle core, for stating
properties of operation sequences. -/
inductive Op where
  | verifyOp (ip : String) (req : VerifyRequest) (now : Int)
  | altCreate (rng : Nat → Fin 10) (cid : String) (now : Int)
  | enhCreate (req_use_dataset gen_use_dataset : Bool) (lenChoice : Fin 4)
      (rng : Nat → Fin 10) (cid : String) (now : Int)

/-- Run one operation against the server state. -/
def applyOp (st : ServerState) : Op → ServerState
  | .verifyOp ip req now => (verify_response st ip req now).2
  | .altCreate rng cid now =>
    { st with db := (alternative_challenge st.db rng cid now).1 }
  | .enhCreate a b l rng cid now =>
    { st with db := (enhanced_generate_challenge st.db a b l rng cid now).1 }

/-- Run a sequence of operations. -/
def applyOps (st : ServerState) (ops : List Op) : ServerState :=
  ops.foldl applyOp st

/-- The attempt count the store records for id, 0 when absent. -/
def attemptsOf (st : ServerState) (id : String) : Nat :=
  ((getChallenge st.db id).map (fun ch => ch.attempts)).getD 0

/-- The solved flag the store records for id, false when absent. -/
def solvedOf (st : ServerState) (id : String) : Bool :=
  ((getChallenge st.db id).map (fun ch => ch.solved)).getD false

/-- Every row of the table stores a digit-only expected answer. -/
def digitOnlyStore (db : Store) : Prop :=
  ∀ p ∈ db, p.2.sequence.data.all Char.isDigit = true

/-! Helper lemmas about the store and rate-limiter operations. -/

theorem getChallenge_updField (db : Store) (id : String) (f : Challenge → Challenge)
    (id2 : String) :
    getChallenge (updField db id f) id2 =
      if id2 = id then (getChallenge db id2).map f else getChallenge db id2 := by
  unfold getChallenge updField
  rw [List.find?_map]
  have hpred : ((fun p : String × Challenge => p.1 == id2) ∘
      fun p => if p.1 == id then (p.1, f p.2) else p) =
      fun p : String × Challenge => p.1 == id2 := by
    funext p
    by_cases h : p.1 = id <;> simp [h]
  rw [hpred]
  cases hfind : List.find? (fun p : String × Challenge => p.1 == id2) db with
  | none => simp
  | some q =>
    have hq0 := List.find?_some hfind
    simp only [beq_iff_eq] at hq0
    have hq : q.1 = id2 := hq0
    by_cases hii : id2 = id
    · subst hii
      simp [hq]
    · simp [hq, hii]

theorem updField_keys (db : Store) (id : String) (f : Challenge → Challenge) :
    (updField db id f).map Prod.fst = db.map Prod.fst := by
  unfold updField
  rw [List.map_map]
  apply List.map_congr_left
  intro p _
  by_cases h : p.1 = id <;> simp [h]

theorem getChallenge_insert (db : Store) (id seq : String) (created : Int)
    (ctype : String) (id2 : String) :
    getChallenge (insertChallenge db id seq created ctype) id2 =
      if (getChallenge db id).isSome then getChallenge db id2
      else if id2 = id then
        some { sequence := seq, created_at := created, attempts := 0,
               solved := false, challenge_type := ctype }
      else getChallenge db id2 := by
  unfold insertChallenge
  have hiff : (List.find? (fun p : String × Challenge => p.1 == id) db).isSome =
      (getChallenge db id).isSome := by
    unfold getChallenge
    cases List.find? (fun p : String × Challenge => p.1 == id) db <;> rfl
  by_cases h : (List.find? (fun p : String × Challenge => p.1 == id) db).isSome = true
  · rw [if_pos h, if_pos (hiff ▸ h)]
  · rw [if_neg h, if_neg (fun hg => h (hiff ▸ hg))]
    unfold getChallenge
    by_cases h2 : id2 = id
    · subst h2
      simp [List.find?]
    · have : (id == id2) = false := by
        simp [beq_iff_eq]
        exact fun he => h2 he.symm
      simp [List.find?, this, h2]

theorem lookupAttempt_setAttempt (m : AttemptMap) (ip : String) (t : Int)
    (ip2 : String) :
    lookupAttempt (setAttempt m ip t) ip2 =
      if ip2 = ip then some t else lookupAttempt m ip2 := by
  unfold setAttempt lookupAttempt
  by_cases h : (List.find? (fun p : String × Int => p.1 == ip) m).isSome = true
  · rw [if_pos h]
    rw [List.find?_map]
    have hpred : ((fun p : String × Int => p.1 == ip2) ∘
        fun p => if p.1 == ip then (p.1, t) else p) =
        fun p : String × Int => p.1 == ip2 := by
      funext p
      by_cases hp : p.1 = ip <;> simp [hp]
    rw [hpred]
    cases hfind : List.find? (fun p : String × Int => p.1 == ip2) m with
    | none =>
      have hnone : ¬ ip2 = ip := by
        intro he
        subst he
        rw [hfind] at h
        exact Bool.false_ne_true h
      simp [hnone]
    | some q =>
      have hq0 := List.find?_some hfind
      simp only [beq_iff_eq] at hq0
      have hq : q.1 = ip2 := hq0
      by_cases hii : ip2 = ip
      · subst hii
        simp [hq]
      · simp [hq, hii]
  · rw [if_neg h]
    by_cases h2 : ip2 = ip
    · subst h2
      simp [List.find?]
    · have : (ip == ip2) = false := by
        simp [beq_iff_eq]
        exact fun he => h2 he.symm
      simp [List.find?, this, h2]

theorem verify_response_allowed (st : ServerState) (ip : String) (req : VerifyRequest)
    (now : Int) (h : rateAllows st.challenge_attempts ip now = true) :
    verify_response st ip req now = verifyGate st ip req now := by
  unfold verify_response
  unfold rateAllows at h
  cases hl : lookupAttempt st.challenge_attempts ip with
  | none => rfl
  | some last_attempt =>
    rw [hl] at h
    have hle : min_interval ≤ now - last_attempt := of_decide_eq_true h
    simp only
    rw [if_neg (by omega)]

theorem verifyGate_state (st : ServerState) (ip : String) (req : VerifyRequest)
    (now : Int) :
    (verifyGate st ip req now).2.challenge_attempts =
        setAttempt st.challenge_attempts ip now ∧
      (verifyGate st ip req now).1.rate_limited = false := by
  unfold verifyGate
  cases req.challenge_id with
  | none => exact ⟨rfl, rfl⟩
  | some cid =>
    simp only
    by_cases hc : (cid == "") = true
    · rw [if_pos hc]
      exact ⟨rfl, rfl⟩
    · rw [if_neg hc]
      cases getChallenge
          { st with challenge_attempts := setAttempt st.challenge_attempts ip now }.db
          cid with
      | none => exact ⟨rfl, rfl⟩
      | some ch => exact ⟨rfl, rfl⟩

theorem verifyGate_verdict (st : ServerState) (ip : String) (req : VerifyRequest)
    (now : Int) (cid : String) (ch : Challenge)
    (hcid : req.challenge_id = some cid) (hne : cid ≠ "")
    (hget : getChallenge st.db cid = some ch) :
    verifyGate st ip req now =
      (.verdict (cleanDigits (pyStr (req.response.getD (.str ""))) == cleanDigits ch.sequence)
          (cleanDigits ch.sequence) (cleanDigits (pyStr (req.response.getD (.str "")))),
        { challenge_attempts := setAttempt st.challenge_attempts ip now,
          db := if (cleanDigits (pyStr (req.response.getD (.str ""))) ==
                      cleanDigits ch.sequence) = true
                then markSolved (updateAttempts st.db cid (ch.attempts + 1)) cid
                else updateAttempts st.db cid (ch.attempts + 1) }) := by
  unfold verifyGate
  rw [hcid]
  simp only
  rw [if_neg (by simpa using hne)]
  have hdb : ({ st with challenge_attempts := setAttempt st.challenge_attempts ip now } :
      ServerState).db = st.db := rfl
  rw [hdb, hget]

theorem cleanDigits_id_of_digits (s : String) (h : s.data.all Char.isDigit = true) :
    cleanDigits s = s := by
  unfold cleanDigits
  have : s.data.filter Char.isDigit = s.data :=
    List.filter_eq_self.mpr (by simpa [List.all_eq_true] using h)
  rw [this]

theorem pyChoicesDigits_length (rng : Nat → Fin 10) (k : Nat) :
    (pyChoicesDigits rng k).length = k := by
  unfold pyChoicesDigits
  simp [String.length]

theorem pyChoicesDigits_all_digits (rng : Nat → Fin 10) (k : Nat) :
    (pyChoicesDigits rng k).data.all Char.isDigit = true := by
  unfold pyChoicesDigits
  simp only [List.all_eq_true, List.mem_map]
  rintro c ⟨i, hi, rfl⟩
  have h : ∀ j : Fin 10, (digitPool.get ⟨j.val, j.isLt⟩).isDigit = true := by decide
  exact h (rng i)

/-- C1: a verify call from a client whose previous verify call was less
than the configured minimum interval (2 seconds) earlier returns the
rate-limited body (success false, rate_limited true) and leaves the
entire server state unchanged, so neither the client's last_attempt_at
nor any attempt count moves; a call the gate allows (no prior record,
or at least the interval elapsed) is not rate-limited and sets the
client's last_attempt_at to the current time. -/
theorem C1_rate_limit (st : ServerState) (ip : String) (req : VerifyRequest)
    (now : Int) :
    (∀ last_attempt, lookupAttempt st.challenge_attempts ip = some last_attempt →
        now - last_attempt < min_interval →
        (verify_response st ip req now).1.success = false ∧
        (verify_response st ip req now).1.rate_limited = true ∧
        (verify_response st ip req now).2 = st) ∧
      (rateAllows st.challenge_attempts ip now = true →
        (verify_response st ip req now).1.rate_limited = false ∧
        lookupAttempt (verify_response st ip req now).2.challenge_attempts ip =
          some now) := by
  constructor
  · intro last_attempt hl hlt
    have hv : verify_response st ip req now = (.rateLimited, st) := by
      unfold verify_response
      rw [hl]
      simp [hlt]
    rw [hv]
    exact ⟨rfl, rfl, rfl⟩
  · intro hallow
    rw [verify_response_allowed st ip req now hallow]
    refine ⟨(verifyGate_state st ip req now).2, ?_⟩
    rw [(verifyGate_state st ip req now).1, lookupAttempt_setAttempt]
    simp

/-- Witness for C1: with a record 1 second old the call is rejected and
the state untouched; with the same record 2 seconds old the call passes
and last_attempt_at becomes the current time. -/
theorem C1_rate_limit_witness :
    ((verify_response ⟨[("1.2.3.4", 10)], []⟩ "1.2.3.4"
          ⟨some "c", some (.str "1")⟩ 11).1.rate_limited = true ∧
        (verify_response ⟨[("1.2.3.4", 10)], []⟩ "1.2.3.4"
          ⟨some "c", some (.str "1")⟩ 11).2 = ⟨[("1.2.3.4", 10)], []⟩) ∧
      lookupAttempt (verify_response ⟨[("1.2.3.4", 10)], []⟩ "1.2.3.4"
          ⟨some "c", some (.str "1")⟩ 12).2.challenge_attempts "1.2.3.4" =
        some 12 :=
  ⟨⟨((C1_rate_limit ⟨[("1.2.3.4", 10)], []⟩ "1.2.3.4"
        ⟨some "c", some (.str "1")⟩ 11).1 10 (by decide) (by decide)).2.1,
      ((C1_rate_limit ⟨[("1.2.3.4", 10)], []⟩ "1.2.3.4"
        ⟨some "c", some (.str "1")⟩ 11).1 10 (by decide) (by decide)).2.2⟩,
    ((C1_rate_limit ⟨[("1.2.3.4", 10)], []⟩ "1.2.3.4"
        ⟨some "c", some (.str "1")⟩ 12).2 (by decide)).2⟩

/-- C2: a verify call on an existing challenge cleans both the
submitted response and the stored expected answer down to their digit
characters and succeeds exactly when the cleaned strings are equal. -/
theorem C2_cleaning_policy (st : ServerState) (ip : String) (req : VerifyRequest)
    (now : Int) (cid : String) (ch : Challenge)
    (hallow : rateAllows st.challenge_attempts ip now = true)
    (hcid : req.challenge_id = some cid) (hne : cid ≠ "")
    (hget : getChallenge st.db cid = some ch) :
    (verify_response st ip req now).1 =
        .verdict (cleanDigits (pyStr (req.response.getD (.str ""))) ==
            cleanDigits ch.sequence)
          (cleanDigits ch.sequence)
          (cleanDigits (pyStr (req.response.getD (.str "")))) ∧
      ((verify_response st ip req now).1.success = true ↔
        cleanDigits (pyStr (req.response.getD (.str ""))) =
          cleanDigits ch.sequence) := by
  rw [verify_response_allowed st ip req now hallow,
    verifyGate_verdict st ip req now cid ch hcid hne hget]
  refine ⟨rfl, ?_⟩
  simp [VerifyOutcome.success]

/-- Witness for C2: response "1-2 3a4" against the stored expected
answer "1234" succeeds. -/
theorem C2_cleaning_policy_witness :
    (verify_response ⟨[], [("c2", ⟨"1234", 0, 0, false, "synthetic"⟩)]⟩ "ip"
        ⟨some "c2", some (.str "1-2 3a4")⟩ 0).1.success = true :=
  ((C2_cleaning_policy ⟨[], [("c2", ⟨"1234", 0, 0, false, "synthetic"⟩)]⟩ "ip"
      ⟨some "c2", some (.str "1-2 3a4")⟩ 0 "c2" ⟨"1234", 0, 0, false, "synthetic"⟩
      (by decide) rfl (by decide) (by decide)).2).mpr (by decide)

/-- C3: a verify call that passes the rate limiter and finds an
existing record for the given id leaves that record with an attempt
count exactly one above its previous value, whatever the verdict. -/
theorem C3_attempt_increment (st : ServerState) (ip : String) (req : VerifyRequest)
    (now : Int) (cid : String) (ch : Challenge)
    (hallow : rateAllows st.challenge_attempts ip now = true)
    (hcid : req.challenge_id = some cid) (hne : cid ≠ "")
    (hget : getChallenge st.db cid = some ch) :
    attemptsOf (verify_response st ip req now).2 cid = ch.attempts + 1 := by
  rw [verify_response_allowed st ip req now hallow,
    verifyGate_verdict st ip req now cid ch hcid hne hget]
  unfold attemptsOf
  by_cases hs : (cleanDigits (pyStr (req.response.getD (.str ""))) ==
      cleanDigits ch.sequence) = true
  · simp only [hs, if_true]
    unfold markSolved updateAttempts
    rw [getChallenge_updField, if_pos rfl, getChallenge_updField, if_pos rfl, hget]
    rfl
  · rw [if_neg hs]
    unfold updateAttempts
    rw [getChallenge_updField, if_pos rfl, hget]
    rfl

/-- Witness for C3: the concrete 7042 scenario.  The first verify with
"0000" yields the failure verdict carrying expected "7042" and provided
"0000" and leaves attempt_count 1 (obtained from the theorem); the
second verify, after the rate-limit interval, succeeds with
attempt_count 2 and solved true. -/
theorem C3_attempt_increment_witness :
    ((verify_response ⟨[], [("c1", ⟨"7042", 0, 0, false, "alternative"⟩)]⟩
          "9.9.9.9" ⟨some "c1", some (.str "0000")⟩ 0).1 =
        .verdict false "7042" "0000") ∧
      attemptsOf (verify_response ⟨[], [("c1", ⟨"7042", 0, 0, false, "alternative"⟩)]⟩
          "9.9.9.9" ⟨some "c1", some (.str "0000")⟩ 0).2 "c1" = 0 + 1 ∧
      ((verify_response
            (verify_response ⟨[], [("c1", ⟨"7042", 0, 0, false, "alternative"⟩)]⟩
              "9.9.9.9" ⟨some "c1", some (.str "0000")⟩ 0).2
            "9.9.9.9" ⟨some "c1", some (.str "7042")⟩ 5).1.success = true ∧
        attemptsOf (verify_response
            (verify_response ⟨[], [("c1", ⟨"7042", 0, 0, false, "alternative"⟩)]⟩
              "9.9.9.9" ⟨some "c1", some (.str "0000")⟩ 0).2
            "9.9.9.9" ⟨some "c1", some (.str "7042")⟩ 5).2 "c1" = 2 ∧
        solvedOf (verify_response
            (verify_response ⟨[], [("c1", ⟨"7042", 0, 0, false, "alternative"⟩)]⟩
              "9.9.9.9" ⟨some "c1", some (.str "0000")⟩ 0).2
            "9.9.9.9" ⟨some "c1", some (.str "7042")⟩ 5).2 "c1" = true) :=
  ⟨by decide,
    C3_attempt_increment ⟨[], [("c1", ⟨"7042", 0, 0, false, "alternative"⟩)]⟩
      "9.9.9.9" ⟨some "c1", some (.str "0000")⟩ 0 "c1"
      ⟨"7042", 0, 0, false, "alternative"⟩ (by decide) rfl (by decide) (by decide),
    by decide⟩

theorem verifyGate_missing (st : ServerState) (ip : String) (req : VerifyRequest)
    (now : Int) (h : req.challenge_id = none ∨ req.challenge_id = some "") :
    verifyGate st ip req now =
      (.missingChallengeId,
        { st with challenge_attempts := setAttempt st.challenge_attempts ip now }) := by
  unfold verifyGate
  rcases h with h | h
  · rw [h]
  · rw [h]
    simp

theorem verifyGate_invalid (st : ServerState) (ip : String) (req : VerifyRequest)
    (now : Int) (cid : String)
    (hcid : req.challenge_id = some cid) (hne : cid ≠ "")
    (hget : getChallenge st.db cid = none) :
    verifyGate st ip req now =
      (.invalidChallenge,
        { st with challenge_attempts := setAttempt st.challenge_attempts ip now }) := by
  unfold verifyGate
  rw [hcid]
  simp only
  rw [if_neg (by simpa using hne)]
  have hdb : ({ st with challenge_attempts := setAttempt st.challenge_attempts ip now } :
      ServerState).db = st.db := rfl
  rw [hdb, hget]

theorem insert_mono (db : Store) (cid seq : String) (created : Int) (ctype : String)
    (id : String) :
    ((getChallenge db id).map (fun ch => ch.attempts)).getD 0 ≤
        ((getChallenge (insertChallenge db cid seq created ctype) id).map
          (fun ch => ch.attempts)).getD 0 ∧
      ((getChallenge db id).map (fun ch => ch.solved)).getD false ≤
        ((getChallenge (insertChallenge db cid seq created ctype) id).map
          (fun ch => ch.solved)).getD false := by
  rw [getChallenge_insert]
  by_cases h : (getChallenge db cid).isSome = true
  · rw [if_pos h]
    exact ⟨le_refl _, le_refl _⟩
  · rw [if_neg h]
    by_cases h2 : id = cid
    · subst h2
      have hnone : getChallenge db id = none := by
        cases hg : getChallenge db id with
        | none => rfl
        | some c => rw [hg] at h; exact absurd rfl h
      rw [if_pos rfl, hnone]
      exact ⟨Nat.le_refl 0, le_refl false⟩
    · rw [if_neg h2]
      exact ⟨le_refl _, le_refl _⟩

theorem verifyGate_mono (st : ServerState) (ip : String) (req : VerifyRequest)
    (now : Int) (id : String) :
    attemptsOf st id ≤ attemptsOf (verifyGate st ip req now).2 id ∧
      solvedOf st id ≤ solvedOf (verifyGate st ip req now).2 id := by
  cases hcid : req.challenge_id with
  | none =>
    rw [verifyGate_missing st ip req now (Or.inl hcid)]
    exact ⟨le_refl _, le_refl _⟩
  | some cid =>
    by_cases hc : cid = ""
    · subst hc
      rw [verifyGate_missing st ip req now (Or.inr hcid)]
      exact ⟨le_refl _, le_refl _⟩
    · cases hget : getChallenge st.db cid with
      | none =>
        rw [verifyGate_invalid st ip req now cid hcid hc hget]
        exact ⟨le_refl _, le_refl _⟩
      | some ch =>
        rw [verifyGate_verdict st ip req now cid ch hcid hc hget]
        unfold attemptsOf solvedOf
        by_cases hid : id = cid
        · subst hid
          by_cases hs : (cleanDigits (pyStr (req.response.getD (.str ""))) ==
              cleanDigits ch.sequence) = true
          · rw [if_pos hs]
            unfold markSolved updateAttempts
            rw [getChallenge_updField, if_pos rfl, getChallenge_updField, if_pos rfl,
              hget]
            constructor
            · simp
            · simp
          · rw [if_neg hs]
            unfold updateAttempts
            rw [getChallenge_updField, if_pos rfl, hget]
            constructor
            · simp
            · simp
        · by_cases hs : (cleanDigits (pyStr (req.response.getD (.str ""))) ==
              cleanDigits ch.sequence) = true
          · rw [if_pos hs]
            unfold markSolved updateAttempts
            rw [getChallenge_updField, if_neg hid, getChallenge_updField, if_neg hid]
            exact ⟨le_refl _, le_refl _⟩
          · rw [if_neg hs]
            unfold updateAttempts
            rw [getChallenge_updField, if_neg hid]
            exact ⟨le_refl _, le_refl _⟩

theorem applyOp_mono (st : ServerState) (op : Op) (id : String) :
    attemptsOf st id ≤ attemptsOf (applyOp st op) id ∧
      solvedOf st id ≤ solvedOf (applyOp st op) id := by
  cases op with
  | verifyOp ip req now =>
    show attemptsOf st id ≤ attemptsOf (verify_response st ip req now).2 id ∧
      solvedOf st id ≤ solvedOf (verify_response st ip req now).2 id
    unfold verify_response
    cases hl : lookupAttempt st.challenge_attempts ip with
    | some last =>
      dsimp only
      by_cases hlt : now - last < min_interval
      · rw [if_pos hlt]
        exact ⟨le_refl _, le_refl _⟩
      · rw [if_neg hlt]
        exact verifyGate_mono st ip req now id
    | none => exact verifyGate_mono st ip req now id
  | altCreate rng cid now =>
    unfold applyOp alternative_challenge attemptsOf solvedOf
    exact insert_mono st.db cid (alternative_sequence rng) now "alternative" id
  | enhCreate a b l rng cid now =>
    unfold applyOp enhanced_generate_challenge attemptsOf solvedOf
    exact insert_mono st.db cid _ now _ id

/-- C4: over any sequence of create and verify operations, a given
challenge id's attempt count and solved flag are monotonically
non-decreasing: once solved, no later operation resets the flag. -/
theorem C4_monotonicity (st : ServerState) (ops : List Op) (id : String) :
    attemptsOf st id ≤ attemptsOf (applyOps st ops) id ∧
      solvedOf st id ≤ solvedOf (applyOps st ops) id := by
  induction ops generalizing st with
  | nil => exact ⟨le_refl _, le_refl _⟩
  | cons op rest ih =>
    have h1 := applyOp_mono st op id
    have h2 := ih (applyOp st op)
    have hfold : applyOps st (op :: rest) = applyOps (applyOp st op) rest := rfl
    rw [hfold]
    exact ⟨le_trans h1.1 h2.1, le_trans h1.2 h2.2⟩

theorem verifyGate_keys (st : ServerState) (ip : String) (req : VerifyRequest)
    (now : Int) :
    (verifyGate st ip req now).2.db.map Prod.fst = st.db.map Prod.fst := by
  cases hcid : req.challenge_id with
  | none => rw [verifyGate_missing st ip req now (Or.inl hcid)]
  | some cid =>
    by_cases hc : cid = ""
    · subst hc
      rw [verifyGate_missing st ip req now (Or.inr hcid)]
    · cases hget : getChallenge st.db cid with
      | none => rw [verifyGate_invalid st ip req now cid hcid hc hget]
      | some ch =>
        rw [verifyGate_verdict st ip req now cid ch hcid hc hget]
        by_cases hs : (cleanDigits (pyStr (req.response.getD (.str ""))) ==
            cleanDigits ch.sequence) = true
        · rw [if_pos hs]
          unfold markSolved updateAttempts
          rw [updField_keys, updField_keys]
        · rw [if_neg hs]
          unfold updateAttempts
          rw [updField_keys]

/-- C5: a verify call that passes the rate limiter but names a
challenge id with no record in the store returns the failure body
whose error field is the invalid-challenge error, and the challenge
table is left exactly as it was; moreover no verify call whatsoever
changes the set of challenge ids in the table, so the verify path can
never mint a record for a client-supplied id. -/
theorem C5_unknown_id (st : ServerState) (ip : String) (req : VerifyRequest)
    (now : Int) :
    (∀ cid, rateAllows st.challenge_attempts ip now = true →
        req.challenge_id = some cid → cid ≠ "" →
        getChallenge st.db cid = none →
        (verify_response st ip req now).1 = .invalidChallenge ∧
        (verify_response st ip req now).1.success = false ∧
        (verify_response st ip req now).1.error = some "Invalid challenge" ∧
        (verify_response st ip req now).2.db = st.db) ∧
      (verify_response st ip req now).2.db.map Prod.fst = st.db.map Prod.fst := by
  constructor
  · intro cid hallow hcid hne hget
    rw [verify_response_allowed st ip req now hallow,
      verifyGate_invalid st ip req now cid hcid hne hget]
    exact ⟨rfl, rfl, rfl, rfl⟩
  · unfold verify_response
    cases hl : lookupAttempt st.challenge_attempts ip with
    | some last =>
      dsimp only
      by_cases hlt : now - last < min_interval
      · rw [if_pos hlt]
      · rw [if_neg hlt]
        exact verifyGate_keys st ip req now
    | none => exact verifyGate_keys st ip req now

/-- Witness for C5: against a store holding only challenge "c1", a
verify call naming the unknown id "zzz" yields the invalid-challenge
body and leaves the table untouched. -/
theorem C5_unknown_id_witness :
    (verify_response ⟨[], [("c1", ⟨"7042", 0, 0, false, "alternative"⟩)]⟩ "ip"
          ⟨some "zzz", some (.str "1")⟩ 0).1 = .invalidChallenge ∧
      (verify_response ⟨[], [("c1", ⟨"7042", 0, 0, false, "alternative"⟩)]⟩ "ip"
          ⟨some "zzz", some (.str "1")⟩ 0).2.db =
        [("c1", ⟨"7042", 0, 0, false, "alternative"⟩)] :=
  ⟨((C5_unknown_id ⟨[], [("c1", ⟨"7042", 0, 0, false, "alternative"⟩)]⟩ "ip"
        ⟨some "zzz", some (.str "1")⟩ 0).1 "zzz" (by decide) rfl (by decide)
        (by decide)).1,
    ((C5_unknown_id ⟨[], [("c1", ⟨"7042", 0, 0, false, "alternative"⟩)]⟩ "ip"
        ⟨some "zzz", some (.str "1")⟩ 0).1 "zzz" (by decide) rfl (by decide)
        (by decide)).2.2.2⟩

/-- C6 counterexample: with a stored expected answer "abc", which
cleans to the empty string, a verify call whose response "xyz" also
cleans to the empty string is reported as a success, so the code does
not refuse a match when the expected answer cleans to empty. -/
theorem C6_counterexample :
    cleanDigits "abc" = "" ∧
      (verify_response ⟨[], [("c6", ⟨"abc", 0, 0, false, "synthetic"⟩)]⟩ "ip"
        ⟨some "c6", some (.str "xyz")⟩ 0).1.success = true := by decide

/-- C6 amended: an empty cleaned response never matches a non-empty
expected answer; when the stored expected answer cleans to the empty
string the code performs no configuration-defect handling but plain
equality of the cleaned strings, so the call succeeds exactly when the
cleaned response is empty as well. -/
theorem C6_empty_semantics (st : ServerState) (ip : String) (req : VerifyRequest)
    (now : Int) (cid : String) (ch : Challenge)
    (hallow : rateAllows st.challenge_attempts ip now = true)
    (hcid : req.challenge_id = some cid) (hne : cid ≠ "")
    (hget : getChallenge st.db cid = some ch) :
    (cleanDigits (pyStr (req.response.getD (.str ""))) = "" →
        cleanDigits ch.sequence ≠ "" →
        (verify_response st ip req now).1.success = false) ∧
      (cleanDigits ch.sequence = "" →
        ((verify_response st ip req now).1.success = true ↔
          cleanDigits (pyStr (req.response.getD (.str ""))) = "")) := by
  rw [verify_response_allowed st ip req now hallow,
    verifyGate_verdict st ip req now cid ch hcid hne hget]
  constructor
  · intro hu hs
    show (cleanDigits (pyStr (req.response.getD (.str ""))) ==
        cleanDigits ch.sequence) = false
    rw [hu]
    exact beq_eq_false_iff_ne.mpr (fun h => hs h.symm)
  · intro hseq
    rw [hseq]
    simp [VerifyOutcome.success]

/-- Witness for C6 amended: the empty-cleaning response "zz" does not
match the non-empty stored expected answer "1234". -/
theorem C6_empty_semantics_witness :
    (verify_response ⟨[], [("c1", ⟨"1234", 0, 0, false, "synthetic"⟩)]⟩ "ip"
        ⟨some "c1", some (.str "zz")⟩ 0).1.success = false :=
  (C6_empty_semantics ⟨[], [("c1", ⟨"1234", 0, 0, false, "synthetic"⟩)]⟩ "ip"
      ⟨some "c1", some (.str "zz")⟩ 0 "c1" ⟨"1234", 0, 0, false, "synthetic"⟩
      (by decide) rfl (by decide) (by decide)).1 (by decide) (by decide)

/-- C7: immediately after either creation path has inserted a
challenge under a fresh id, the stored record has attempt count 0,
solved false, and its stored expected answer is exactly the generated
sequence the route reports. -/
theorem C7_create_initial (db : Store) (rng : Nat → Fin 10) (lenChoice : Fin 4)
    (req_use_dataset gen_use_dataset : Bool) (cid : String) (now : Int)
    (hfresh : getChallenge db cid = none) :
    ((getChallenge (alternative_challenge db rng cid now).1 cid).map
          (fun ch => (ch.sequence, ch.attempts, ch.solved)) =
        some ((alternative_challenge db rng cid now).2, 0, false)) ∧
      ((getChallenge (enhanced_generate_challenge db req_use_dataset gen_use_dataset
            lenChoice rng cid now).1 cid).map
          (fun ch => (ch.sequence, ch.attempts, ch.solved)) =
        some ((enhanced_generate_challenge db req_use_dataset gen_use_dataset
            lenChoice rng cid now).2, 0, false)) := by
  have hnotsome : ¬ (getChallenge db cid).isSome = true := by
    rw [hfresh]
    simp
  constructor
  · unfold alternative_challenge
    rw [getChallenge_insert, if_neg hnotsome, if_pos rfl]
    rfl
  · unfold enhanced_generate_challenge
    rw [getChallenge_insert, if_neg hnotsome, if_pos rfl]
    rfl

/-- Witness for C7: creating an alternative challenge under the fresh
id "id1" in the empty store yields a record with attempt count 0 and
solved false holding the generated sequence. -/
theorem C7_create_initial_witness :
    (getChallenge (alternative_challenge [] (fun _ => 3) "id1" 0).1 "id1").map
        (fun ch => (ch.sequence, ch.attempts, ch.solved)) =
      some ((alternative_challenge [] (fun _ => 3) "id1" 0).2, 0, false) :=
  (C7_create_initial [] (fun _ => 3) 0 true true "id1" 0 rfl).1

/-- C8 counterexample: a verify call with a missing challenge_id is
answered with the validation failure only after the rate limiter has
recorded last_attempt_at = now for the client; and a non-string
response value (the JSON number 1234) is not rejected at all: it is
coerced by str(), reaches verification, increments the attempt count,
and even matches the stored expected answer "1234". -/
theorem C8_counterexample :
    lookupAttempt (verify_response ⟨[], []⟩ "1.2.3.4"
          ⟨none, some (.str "1")⟩ 7).2.challenge_attempts "1.2.3.4" = some 7 ∧
      (verify_response ⟨[], [("c8", ⟨"1234", 0, 0, false, "synthetic"⟩)]⟩ "5.6.7.8"
          ⟨some "c8", some (.int 1234)⟩ 0).1.success = true ∧
      attemptsOf (verify_response ⟨[], [("c8", ⟨"1234", 0, 0, false, "synthetic"⟩)]⟩
          "5.6.7.8" ⟨some "c8", some (.int 1234)⟩ 0).2 "c8" = 1 := by decide

/-- C8 amended: a missing (or empty) challenge_id is rejected with a
validation failure before any Challenge Store access, leaving the
table untouched, but only after the rate limiter has set the client
last_attempt_at to the current time; a non-string response value is
not rejected: it is coerced to its str() form and verified normally. -/
theorem C8_malformed_input (st : ServerState) (ip : String) (req : VerifyRequest)
    (now : Int) (hallow : rateAllows st.challenge_attempts ip now = true) :
    ((req.challenge_id = none ∨ req.challenge_id = some "") →
        (verify_response st ip req now).1 = .missingChallengeId ∧
        (verify_response st ip req now).1.error = some "Missing challenge_id" ∧
        (verify_response st ip req now).2.db = st.db ∧
        lookupAttempt (verify_response st ip req now).2.challenge_attempts ip =
          some now) ∧
      (∀ cid ch n, req.challenge_id = some cid → cid ≠ "" →
        getChallenge st.db cid = some ch → req.response = some (.int n) →
        (verify_response st ip req now).1 =
          .verdict (cleanDigits (toString n) == cleanDigits ch.sequence)
            (cleanDigits ch.sequence) (cleanDigits (toString n))) := by
  rw [verify_response_allowed st ip req now hallow]
  constructor
  · intro h
    rw [verifyGate_missing st ip req now h]
    refine ⟨rfl, rfl, rfl, ?_⟩
    show lookupAttempt (setAttempt st.challenge_attempts ip now) ip = some now
    rw [lookupAttempt_setAttempt]
    simp
  · intro cid ch n hcid hne hget hresp
    rw [verifyGate_verdict st ip req now cid ch hcid hne hget, hresp]
    rfl

/-- Witness for C8 amended: with a missing challenge_id the body is
the validation failure and the rate-limiter entry is set to now. -/
theorem C8_malformed_input_witness :
    (verify_response ⟨[], []⟩ "1.2.3.4" ⟨none, some (.str "1")⟩ 7).1 =
        .missingChallengeId ∧
      (verify_response ⟨[], []⟩ "1.2.3.4" ⟨none, some (.str "1")⟩ 7).2.db = [] :=
  ⟨((C8_malformed_input ⟨[], []⟩ "1.2.3.4" ⟨none, some (.str "1")⟩ 7
        (by decide)).1 (Or.inl rfl)).1,
    ((C8_malformed_input ⟨[], []⟩ "1.2.3.4" ⟨none, some (.str "1")⟩ 7
        (by decide)).1 (Or.inl rfl)).2.2.1⟩

/-- C9: every sequence a Sequence Source produces is a digit string;
its length lies in [3,6] in dataset mode, is exactly 4 in synthetic
mode and exactly 3 in alternative mode. -/
theorem C9_sequence_lengths (lenChoice : Fin 4) (rng : Nat → Fin 10) :
    (3 ≤ (load_audio_sample lenChoice rng).length ∧
        (load_audio_sample lenChoice rng).length ≤ 6) ∧
      (generate_synthetic_challenge rng).length = 4 ∧
      (alternative_sequence rng).length = 3 ∧
      (load_audio_sample lenChoice rng).data.all Char.isDigit = true ∧
      (generate_synthetic_challenge rng).data.all Char.isDigit = true ∧
      (alternative_sequence rng).data.all Char.isDigit = true := by
  refine ⟨⟨?_, ?_⟩, ?_, ?_, ?_, ?_, ?_⟩
  · unfold load_audio_sample
    rw [pyChoicesDigits_length]
    omega
  · unfold load_audio_sample
    rw [pyChoicesDigits_length]
    have := lenChoice.isLt
    omega
  · exact pyChoicesDigits_length rng 4
  · exact pyChoicesDigits_length rng 3
  · exact pyChoicesDigits_all_digits rng _
  · exact pyChoicesDigits_all_digits rng 4
  · exact pyChoicesDigits_all_digits rng 3

theorem digitOnly_updField (db : Store) (id : String) (f : Challenge → Challenge)
    (hf : ∀ c, (f c).sequence = c.sequence) (h : digitOnlyStore db) :
    digitOnlyStore (updField db id f) := by
  unfold digitOnlyStore
  intro p hp
  unfold updField at hp
  rcases List.mem_map.mp hp with ⟨q, hq, rfl⟩
  by_cases hqid : q.1 = id
  · simp only [hqid, beq_self_eq_true, if_true]
    rw [hf q.2]
    exact h q hq
  · have : (q.1 == id) = false := beq_eq_false_iff_ne.mpr hqid
    simp only [this, Bool.false_eq_true, if_false]
    exact h q hq

theorem digitOnly_insert (db : Store) (id seq : String) (created : Int)
    (ctype : String) (hseq : seq.data.all Char.isDigit = true)
    (h : digitOnlyStore db) :
    digitOnlyStore (insertChallenge db id seq created ctype) := by
  unfold insertChallenge
  by_cases hdup : (List.find? (fun p : String × Challenge => p.1 == id) db).isSome = true
  · rw [if_pos hdup]
    exact h
  · rw [if_neg hdup]
    unfold digitOnlyStore
    intro p hp
    rcases List.mem_cons.mp hp with rfl | hp2
    · exact hseq
    · exact h p hp2

theorem digitOnly_verifyGate (st : ServerState) (ip : String) (req : VerifyRequest)
    (now : Int) (h : digitOnlyStore st.db) :
    digitOnlyStore (verifyGate st ip req now).2.db := by
  cases hcid : req.challenge_id with
  | none =>
    rw [verifyGate_missing st ip req now (Or.inl hcid)]
    exact h
  | some cid =>
    by_cases hc : cid = ""
    · subst hc
      rw [verifyGate_missing st ip req now (Or.inr hcid)]
      exact h
    · cases hget : getChallenge st.db cid with
      | none =>
        rw [verifyGate_invalid st ip req now cid hcid hc hget]
        exact h
      | some ch =>
        rw [verifyGate_verdict st ip req now cid ch hcid hc hget]
        by_cases hs : (cleanDigits (pyStr (req.response.getD (.str ""))) ==
            cleanDigits ch.sequence) = true
        · rw [if_pos hs]
          show digitOnlyStore (markSolved (updateAttempts st.db cid (ch.attempts + 1)) cid)
          unfold markSolved updateAttempts
          exact digitOnly_updField _ _ _ (fun c => rfl)
            (digitOnly_updField _ _ _ (fun c => rfl) h)
        · rw [if_neg hs]
          show digitOnlyStore (updateAttempts st.db cid (ch.attempts + 1))
          unfold updateAttempts
          exact digitOnly_updField _ _ _ (fun c => rfl) h

theorem enhanced_text_digits (req_use_dataset gen_use_dataset : Bool)
    (lenChoice : Fin 4) (rng : Nat → Fin 10) :
    (enhanced_challenge_dict req_use_dataset gen_use_dataset lenChoice
        rng).text.data.all Char.isDigit = true := by
  unfold enhanced_challenge_dict generate_challenge_from_dataset
  cases req_use_dataset <;> cases gen_use_dataset <;>
    simp [GeneratedChallenge.text, load_audio_sample,
      generate_synthetic_challenge, pyChoicesDigits_all_digits]

theorem digitOnly_applyOp (st : ServerState) (op : Op) (h : digitOnlyStore st.db) :
    digitOnlyStore (applyOp st op).db := by
  cases op with
  | verifyOp ip req now =>
    show digitOnlyStore (verify_response st ip req now).2.db
    unfold verify_response
    cases hl : lookupAttempt st.challenge_attempts ip with
    | some last =>
      dsimp only
      by_cases hlt : now - last < min_interval
      · rw [if_pos hlt]
        exact h
      · rw [if_neg hlt]
        exact digitOnly_verifyGate st ip req now h
    | none => exact digitOnly_verifyGate st ip req now h
  | altCreate rng cid now =>
    exact digitOnly_insert st.db cid (alternative_sequence rng) now "alternative"
      (pyChoicesDigits_all_digits rng 3) h
  | enhCreate a b l rng cid now =>
    exact digitOnly_insert st.db cid _ now _ (enhanced_text_digits a b l rng) h

theorem digitOnly_applyOps (st : ServerState) (ops : List Op)
    (h : digitOnlyStore st.db) : digitOnlyStore (applyOps st ops).db := by
  induction ops generalizing st with
  | nil => exact h
  | cons op rest ih => exact ih (applyOp st op) (digitOnly_applyOp st op h)

/-- C10: both creation paths store digit-only expected answers, and
starting from the empty store every record reachable through any
sequence of create and verify operations keeps a digit-only expected
answer; cleaning is the identity on digit-only strings; hence for any
stored record the expected field the verify call returns is the
stored sequence exactly as created. -/
theorem C10_digit_only_invariant (db : Store) (rng : Nat → Fin 10)
    (lenChoice : Fin 4) (req_use_dataset gen_use_dataset : Bool) (cid : String)
    (t : Int) (st : ServerState) (ip : String) (req : VerifyRequest) (now : Int)
    (cid2 : String) (ch : Challenge) :
    (alternative_challenge db rng cid t).2.data.all Char.isDigit = true ∧
      (enhanced_generate_challenge db req_use_dataset gen_use_dataset lenChoice rng
          cid t).2.data.all Char.isDigit = true ∧
      (∀ ops : List Op, digitOnlyStore (applyOps ⟨[], []⟩ ops).db) ∧
      (∀ s : String, s.data.all Char.isDigit = true → cleanDigits s = s) ∧
      (rateAllows st.challenge_attempts ip now = true →
        req.challenge_id = some cid2 → cid2 ≠ "" →
        getChallenge st.db cid2 = some ch →
        ch.sequence.data.all Char.isDigit = true →
        (verify_response st ip req now).1.expected = some ch.sequence) := by
  refine ⟨?_, ?_, ?_, cleanDigits_id_of_digits, ?_⟩
  case refine_3 =>
    intro ops
    exact digitOnly_applyOps ⟨[], []⟩ ops (fun p hp => absurd hp (List.not_mem_nil p))
  · exact pyChoicesDigits_all_digits rng 3
  · unfold enhanced_generate_challenge enhanced_challenge_dict
      generate_challenge_from_dataset
    cases req_use_dataset <;> cases gen_use_dataset <;>
      simp [GeneratedChallenge.text, load_audio_sample,
        generate_synthetic_challenge, pyChoicesDigits_all_digits]
  · intro hallow hcid hne hget hdig
    rw [verify_response_allowed st ip req now hallow,
      verifyGate_verdict st ip req now cid2 ch hcid hne hget]
    show some (cleanDigits ch.sequence) = some ch.sequence
    rw [cleanDigits_id_of_digits ch.sequence hdig]

/-- Witness for C10: a record created with digit-only expected answer
"12" is echoed back verbatim in the expected field. -/
theorem C10_digit_only_invariant_witness :
    (verify_response ⟨[], [("w", ⟨"12", 0, 0, false, "alternative"⟩)]⟩ "ip"
        ⟨some "w", some (.str "99")⟩ 0).1.expected = some "12" :=
  (C10_digit_only_invariant [] (fun _ => 0) 0 false false "x" 0
      ⟨[], [("w", ⟨"12", 0, 0, false, "alternative"⟩)]⟩ "ip"
      ⟨some "w", some (.str "99")⟩ 0 "w" ⟨"12", 0, 0, false, "alternative"⟩).2.2.2.2
    (by decide) rfl (by decide) (by decide) (by decide)
